import Mathlib

/-!
Shallow embedding of the path-tracing integrator core of `e8yes-cg`
(`src/corelib/src/pathtracer.cpp`), together with theorems settling
the specification claims about it.

Modelling conventions:
* IEEE-754 32-bit floats are modelled as rationals (`ℚ`); overflow and
  rounding are outside the scope of the verified claims, which are all
  about the exact algebraic and control structure of the code.
* `e8util::vec3` / `color3` become `Vec3`, a triple of rationals with
  componentwise arithmetic, the inner product `Vec3.inner`, scalar
  multiplication and scalar division, exactly the operations the source
  uses.
* The Euclidean length `e8util::vec3::norm()` is irrational-valued, so it
  is carried as an abstract primitive `Env.norm` of the environment; no
  claim depends on its concrete value.
* The external collaborators (path space, material container, light
  sources, RNG — all abstract interfaces consumed by `pathtracer.cpp`)
  are collected in a record `Env` of oracle functions.  The per-thread
  RNG is modelled by an explicit draw counter `s : ℕ`: every primitive
  sampling operation (`rng.draw`, `material::sample`,
  `light_sources::sample_light`, `light::sample_emssion_surface`,
  `light::sample_emssion`) reads the oracle at the current counter and
  advances it by one, which models the strictly sequential consumption
  of the caller's RNG stream by the source.
* Stateful C++ functions become Lean functions returning their result
  paired with the advanced draw counter; array-writing functions return
  the list of elements actually written.
* `e8util::equals(x, 0.0f)` (the absorption test, not part of the core
  sources) is modelled as the exact test `x = 0`, matching the spec's
  "If `w_dens == 0`, stop".
-/

/-- Two-component vector (`e8util::vec2`), used for texture coordinates. -/
structure Vec2 where
  u : ℚ
  v : ℚ
deriving DecidableEq

/-- Three-component vector of rationals, modelling both `e8util::vec3`
and `e8util::color3` (a `vec3` used for radiance). -/
structure Vec3 where
  x : ℚ
  y : ℚ
  z : ℚ
deriving DecidableEq

/-- Color values are `vec3`s in the source; same here. -/
abbrev Color3 := Vec3

instance Vec3.instZero : Zero Vec3 := ⟨⟨0, 0, 0⟩⟩

instance Vec3.instOne : One Vec3 := ⟨⟨1, 1, 1⟩⟩

instance Vec3.instAdd : Add Vec3 := ⟨fun a b => ⟨a.x + b.x, a.y + b.y, a.z + b.z⟩⟩

instance : Neg Vec3 := ⟨fun a => ⟨-a.x, -a.y, -a.z⟩⟩

instance : Sub Vec3 := ⟨fun a b => ⟨a.x - b.x, a.y - b.y, a.z - b.z⟩⟩

/-- Componentwise product, the source's `vec3::operator*(vec3)` used for
color modulation. -/
instance : Mul Vec3 := ⟨fun a b => ⟨a.x * b.x, a.y * b.y, a.z * b.z⟩⟩

/-- Componentwise quotient (`vec3 / vec3`), used by the position tracer. -/
instance : Div Vec3 := ⟨fun a b => ⟨a.x / b.x, a.y / b.y, a.z / b.z⟩⟩

/-- Scaling a vector by a scalar on the right (`vec3 * float`). -/
instance : HMul Vec3 ℚ Vec3 := ⟨fun a c => ⟨a.x * c, a.y * c, a.z * c⟩⟩

/-- Scaling a vector by a scalar on the left (`float * vec3`). -/
instance : HMul ℚ Vec3 Vec3 := ⟨fun c a => ⟨c * a.x, c * a.y, c * a.z⟩⟩

/-- Dividing a vector by a scalar (`vec3 / float`). -/
instance : HDiv Vec3 ℚ Vec3 := ⟨fun a c => ⟨a.x / c, a.y / c, a.z / c⟩⟩

/-- Adding a scalar to every component (`vec3 + float`), used by the
normal tracer's `(n + 1) / 2` remap. -/
instance : HAdd Vec3 ℚ Vec3 := ⟨fun a c => ⟨a.x + c, a.y + c, a.z + c⟩⟩

/-- Inner (dot) product, the source's `vec3::inner`. -/
def Vec3.inner (a b : Vec3) : ℚ :=
  a.x * b.x + a.y * b.y + a.z * b.z

@[simp] theorem Vec3.zero_def : (0 : Vec3) = ⟨0, 0, 0⟩ := rfl

@[simp] theorem Vec3.one_def : (1 : Vec3) = ⟨1, 1, 1⟩ := rfl

@[simp] theorem Vec3.x_zero : Vec3.x 0 = 0 := rfl

@[simp] theorem Vec3.y_zero : Vec3.y 0 = 0 := rfl

@[simp] theorem Vec3.z_zero : Vec3.z 0 = 0 := rfl

@[simp] theorem Vec3.x_one : Vec3.x 1 = 1 := rfl

@[simp] theorem Vec3.y_one : Vec3.y 1 = 1 := rfl

@[simp] theorem Vec3.z_one : Vec3.z 1 = 1 := rfl

@[simp] theorem Vec3.add_def (a b : Vec3) : a + b = ⟨a.x + b.x, a.y + b.y, a.z + b.z⟩ := rfl

@[simp] theorem Vec3.neg_def (a : Vec3) : -a = ⟨-a.x, -a.y, -a.z⟩ := rfl

@[simp] theorem Vec3.sub_def (a b : Vec3) : a - b = ⟨a.x - b.x, a.y - b.y, a.z - b.z⟩ := rfl

@[simp] theorem Vec3.mul_def (a b : Vec3) : a * b = ⟨a.x * b.x, a.y * b.y, a.z * b.z⟩ := rfl

@[simp] theorem Vec3.div_def (a b : Vec3) : a / b = ⟨a.x / b.x, a.y / b.y, a.z / b.z⟩ := rfl

@[simp] theorem Vec3.smul_right_def (a : Vec3) (c : ℚ) :
    a * c = (⟨a.x * c, a.y * c, a.z * c⟩ : Vec3) := rfl

@[simp] theorem Vec3.smul_left_def (c : ℚ) (a : Vec3) :
    c * a = (⟨c * a.x, c * a.y, c * a.z⟩ : Vec3) := rfl

@[simp] theorem Vec3.sdiv_def (a : Vec3) (c : ℚ) :
    a / c = (⟨a.x / c, a.y / c, a.z / c⟩ : Vec3) := rfl

@[simp] theorem Vec3.sadd_def (a : Vec3) (c : ℚ) :
    a + c = (⟨a.x + c, a.y + c, a.z + c⟩ : Vec3) := rfl

@[simp] theorem Vec3.inner_def (a b : Vec3) :
    Vec3.inner a b = a.x * b.x + a.y * b.y + a.z * b.z := rfl

@[simp] theorem Vec3.one_ne_zero : ¬(1 : Vec3) = 0 := by
  simp [Vec3.one_def, Vec3.zero_def]

@[simp] theorem Vec3.mk_eq_zero (a b c : ℚ) :
    (⟨a, b, c⟩ : Vec3) = 0 ↔ a = 0 ∧ b = 0 ∧ c = 0 := by
  simp [Vec3.zero_def, Vec3.mk.injEq]

/-- Componentwise addition on colors is a commutative monoid, so that
sums of per-sample radiance values can be written with `Finset.sum`. -/
instance : AddCommMonoid Vec3 :=
  { Vec3.instAdd, Vec3.instZero with
    add_assoc := by
      intro a b c
      simp only [Vec3.add_def, Vec3.mk.injEq]
      refine ⟨?_, ?_, ?_⟩ <;> ring
    zero_add := by
      intro a
      cases a
      simp
    add_zero := by
      intro a
      cases a
      simp
    add_comm := by
      intro a b
      simp only [Vec3.add_def, Vec3.mk.injEq]
      refine ⟨?_, ?_, ?_⟩ <;> ring
    nsmul := nsmulRec }

/-- Ray `(origin, dir)` (`e8util::ray`); `dir` is the source's `v()`. -/
structure Ray where
  origin : Vec3
  dir : Vec3
deriving DecidableEq

/-- Intersection record (`e8::intersect_info`).  The class itself lives
outside the core sources; its validity predicate is carried as an
explicit boolean field, and `geo` is the opaque geometry handle (the
source stores a pointer; a handle is keyed by `ℕ` here and the material
lookup `mats.find(geo->material_id())` is folded into the environment's
`matEval` / `matSample` oracles keyed by this handle). -/
structure intersect_info where
  valid : Bool
  vertex : Vec3
  normal : Vec3
  uv : Vec2
  t : ℚ
  geo : ℕ
deriving DecidableEq

instance : Inhabited intersect_info :=
  ⟨⟨false, 0, 0, ⟨0, 0⟩, 0, 0⟩⟩

/-- Area-sampled point on a light (`if_light::emission_surface_sample`'s
surface part: position, normal, area density). -/
structure emission_surface where
  p : Vec3
  n : Vec3
  area_dens : ℚ
deriving DecidableEq

/-- Emission sample (`if_light::emission_sample`): a surface sample plus
an outgoing direction `w` with its solid-angle density. -/
structure emission_sample where
  surface : emission_surface
  w : Vec3
  solid_angle_dens : ℚ
deriving DecidableEq

/-- Per-pixel first-hit record (`if_path_tracer::first_hits::hit`):
an intersection and the optional light attached to the hit geometry. -/
structure first_hit where
  intersect : intersect_info
  light : Option ℕ
deriving DecidableEq

/-- Environment of external collaborators consumed by the integrators:
the path space, the material container, the light-source collection and
the RNG, all abstract interfaces in the source.  Stochastic primitives
are oracles indexed by the current draw counter. -/
structure Env where
  /-- `if_path_space::intersect`: closest hit of a ray (an invalid
  record is the miss). -/
  intersect : Ray → intersect_info
  /-- `if_path_space::has_intersect(ray, t_min, t_max, &t)`: occlusion
  test for shadow rays. -/
  hasIntersect : Ray → ℚ → ℚ → Bool
  /-- `if_path_space::aabb().min()`. -/
  aabbMin : Vec3
  /-- `if_path_space::aabb().max()`. -/
  aabbMax : Vec3
  /-- `mats.find(geo->material_id()).eval(uv, n, wo, wi)`. -/
  matEval : ℕ → Vec2 → Vec3 → Vec3 → Vec3 → Color3
  /-- `mats.find(geo->material_id()).sample(rng, &dens, uv, n, wo)`:
  at draw counter `s`, returns the sampled direction and its projected
  solid-angle density. -/
  matSample : ℕ → ℕ → Vec2 → Vec3 → Vec3 → Vec3 × ℚ
  /-- `rng.draw()` at draw counter `s`. -/
  draw : ℕ → ℚ
  /-- `light_sources.sample_light(rng, &mass)` at draw counter `s`:
  the selected light handle and its selection probability mass. -/
  sampleLight : ℕ → ℕ × ℚ
  /-- `light_sources.obj_light(geo)`: the light attached to a geometry,
  if the geometry is emissive. -/
  objLight : ℕ → Option ℕ
  /-- `light.eval(l, n_light, n_target)`. -/
  lightEval : ℕ → Vec3 → Vec3 → Vec3 → Color3
  /-- `light.radiance(w_out, n_light)`. -/
  radiance : ℕ → Vec3 → Vec3 → Color3
  /-- `light.projected_radiance(w_out, n_light)`. -/
  projected_radiance : ℕ → Vec3 → Vec3 → Color3
  /-- `light.sample_emssion_surface(rng)` at draw counter `s`. -/
  sampleEmissionSurface : ℕ → ℕ → emission_surface
  /-- `light.sample_emssion(rng)` at draw counter `s`. -/
  sampleEmission : ℕ → ℕ → emission_sample
  /-- Euclidean length `vec3::norm()`, an irrational-valued primitive
  kept abstract in the rational model. -/
  norm : Vec3 → ℚ

/-- One hop of a random walk (`sampled_pathlet`): the unit vector `v`
pointing from the hop's end vertex back toward the previous vertex, the
density with which the hop was selected, the intersection record at the
end of the hop, and the light directly hit (first hop only). -/
structure sampled_pathlet where
  v : Vec3
  dens : ℚ
  vert : intersect_info
  light : Option ℕ
deriving DecidableEq

instance : Inhabited sampled_pathlet :=
  ⟨⟨0, 0, default, none⟩⟩

/-- `sampled_pathlet::towards_prev()`. -/
def sampled_pathlet.towards_prev (p : sampled_pathlet) : Vec3 := p.v

/-- `sampled_pathlet::towards()`. -/
def sampled_pathlet.towards (p : sampled_pathlet) : Vec3 := -p.v

/-- Free function `brdf(vert, o, i, mats)`:
`mats.find(vert.geo->material_id()).eval(vert.uv, vert.normal, o, i)`. -/
def brdf (env : Env) (vert : intersect_info) (o i : Vec3) : Color3 :=
  env.matEval vert.geo vert.uv vert.normal o i

/-- Free function `projected_brdf(current, next, mats)`:
`eval(current.uv, current.normal, next.towards(), current.towards_prev())`
scaled by `cos_w = current.normal · next.towards()`. -/
def projected_brdf (env : Env) (current next : sampled_pathlet) : Color3 :=
  let cos_w := current.vert.normal.inner next.towards
  env.matEval current.vert.geo current.vert.uv current.vert.normal
      next.towards current.towards_prev * cos_w

/-- Free function `projected_adjoint_brdf(current, next, mats)`:
`eval(current.uv, current.normal, current.towards_prev(), next.towards())`
scaled by the same cosine. -/
def projected_adjoint_brdf (env : Env) (current next : sampled_pathlet) : Color3 :=
  let cos_w := current.vert.normal.inner next.towards
  env.matEval current.vert.geo current.vert.uv current.vert.normal
      current.towards_prev next.towards * cos_w

/-- Recursive core of `sample_path` (the overload taking `depth` and
`max_depth`).  `fuel` stands for `max_depth - depth`; `prev` is
`sampled_path[depth - 1]`, the only array element the core reads.
Returns the list of pathlets written at indices `depth, depth + 1, …`
(so the C++ return value equals `depth` plus the length of this list)
together with the advanced draw counter. -/
def sample_path_core (env : Env) : ℕ → ℕ → sampled_pathlet → List sampled_pathlet × ℕ
  | 0, s, _ => ([], s)
  | Nat.succ fuel, s, prev =>
    let ms := env.matSample s prev.vert.geo prev.vert.uv prev.vert.normal prev.towards_prev
    let s1 := s + 1
    if ms.2 = 0 then ([], s1)
    else
      let next_vert := env.intersect ⟨prev.vert.vertex, ms.1⟩
      if next_vert.valid ∧ 0 < next_vert.normal.inner (-ms.1) then
        let pl : sampled_pathlet := ⟨-ms.1, ms.2, next_vert, none⟩
        let rest := sample_path_core env fuel s1 pl
        (pl :: rest.1, rest.2)
      else ([], s1)

/-- Entry form of `sample_path` bootstrapped from a ray `r0` and a
caller-supplied density `dens0`.  Writes pathlet 0 with
`v = -r0.v()`, `vert` the first hit, `light = nullptr` and
`dens = dens0`, then runs the recursive core with `depth = 1`. -/
def sample_path_from_ray (env : Env) (s : ℕ) (r0 : Ray) (dens0 : ℚ)
    (max_depth : ℕ) : List sampled_pathlet × ℕ :=
  let vert0 := env.intersect r0
  if vert0.valid = false ∨ vert0.normal.inner (-r0.dir) ≤ 0 ∨ max_depth = 0 then ([], s)
  else
    let p0 : sampled_pathlet := ⟨-r0.dir, dens0, vert0, none⟩
    let rest := sample_path_core env (max_depth - 1) s p0
    (p0 :: rest.1, rest.2)

/-- Entry form of `sample_path` bootstrapped from a caller-supplied
deterministic first hit: pathlet 0 gets the hit's intersection, the
hit's light and `dens = 1`. -/
def sample_path_from_first_hit (env : Env) (s : ℕ) (r0 : Ray) (hit : first_hit)
    (max_depth : ℕ) : List sampled_pathlet × ℕ :=
  if hit.intersect.valid = false ∨ max_depth = 0 then ([], s)
  else
    let p0 : sampled_pathlet := ⟨-r0.dir, 1, hit.intersect, hit.light⟩
    let rest := sample_path_core env (max_depth - 1) s p0
    (p0 :: rest.1, rest.2)

/-- `transport_illum_source`: connect the light-surface point `p_illum`
(with normal `n_illum`) on `light` to `target_vert`, returning the
transported radiance: zero when the light's `eval` is zero or the
shadow segment (tolerances `[1e-4, distance - 1e-3]`) is occluded, and
`illum * brdf(target_vert, target_o_ray, i)` otherwise. -/
def transport_illum_source (env : Env) (light : ℕ) (p_illum n_illum : Vec3)
    (target_vert : intersect_info) (target_o_ray : Vec3) : Color3 :=
  let l := target_vert.vertex - p_illum
  let illum := env.lightEval light l n_illum target_vert.normal
  if illum = 0 then 0
  else
    let distance := env.norm l
    let i := -l / distance
    if env.hasIntersect ⟨target_vert.vertex, i⟩ (1 / 10000) (distance - 1 / 1000) then 0
    else illum * brdf env target_vert target_o_ray i

/-- Result of `sample_light_source`: the selected light together with
the sampled emission surface, whose area density has been scaled by the
light-selection probability mass. -/
structure light_sample where
  light : ℕ
  p : Vec3
  n : Vec3
  area_dens : ℚ

/-- `sample_light_source`: select a light (one draw), sample an emission
surface on it (one draw), and scale the area density by the selection
probability mass. -/
def sample_light_source (env : Env) (s : ℕ) : light_sample :=
  let lp := env.sampleLight s
  let es := env.sampleEmissionSurface (s + 1) lp.1
  ⟨lp.1, es.p, es.n, es.area_dens * lp.2⟩

/-- Accumulation loop of `transport_direct_illum`: `k` remaining light
samples starting at draw counter `s`; each iteration consumes two draws
and adds `transport_illum_source(...) / area_dens`. -/
def tdi_loop (env : Env) (target_o_ray : Vec3) (target_vert : intersect_info) :
    ℕ → ℕ → Color3 × ℕ
  | 0, s => (0, s)
  | Nat.succ k, s =>
    let ls := sample_light_source env s
    let term := transport_illum_source env ls.light ls.p ls.n target_vert target_o_ray /
        ls.area_dens
    let rest := tdi_loop env target_o_ray target_vert k (s + 2)
    (term + rest.1, rest.2)

/-- `transport_direct_illum`: average of `multi_light_samps` next-event
samples, each divided by its light-selection-scaled area density. -/
def transport_direct_illum (env : Env) (s : ℕ) (target_o_ray : Vec3)
    (target_vert : intersect_info) (multi_light_samps : ℕ) : Color3 × ℕ :=
  let acc := tdi_loop env target_o_ray target_vert multi_light_samps s
  (acc.1 / (multi_light_samps : ℚ), acc.2)

/-- Value of one sample of the direct-illumination estimator taken at
draw counter `s`, exactly as the specification describes it: `0` when
the light's `eval` is zero or the shadow segment is occluded, and
otherwise `illum * f_r(vert, o, i)` divided by the selection-scaled
area density, with no additional geometric term. -/
def direct_illum_sample_value (env : Env) (s : ℕ) (target_o_ray : Vec3)
    (vert : intersect_info) : Color3 :=
  let ls := sample_light_source env s
  let l := vert.vertex - ls.p
  let illum := env.lightEval ls.light l ls.n vert.normal
  if illum = 0 then 0
  else
    let distance := env.norm l
    let i := -l / distance
    if env.hasIntersect ⟨vert.vertex, i⟩ (1 / 10000) (distance - 1 / 1000) then 0
    else (illum * brdf env vert target_o_ray i) / ls.area_dens

/-- Prefix throughputs `m_prefix_transport` of
`light_transport_info<IMPORTANCE>`: the constructor's running product
`transport *= (IMPORTANCE ? projected_brdf : projected_adjoint_brdf)(path[k], path[k+1]) / path[k+1].dens`
with `m_prefix_transport[0] = 1`, expressed as a recurrence in the
prefix length.  `path k` stands for the array element `path[k]`; the
source only ever reads entries below the path length. -/
def transport_of (env : Env) (importance : Bool) (path : ℕ → sampled_pathlet) :
    ℕ → Color3
  | 0 => 1
  | Nat.succ k =>
    transport_of env importance path k *
      ((if importance then projected_brdf env (path k) (path (k + 1))
        else projected_adjoint_brdf env (path k) (path (k + 1))) / (path (k + 1)).dens)

/-- One connection strategy of `transport_all_connectible_subpaths`:
for the pair `(cam_plen, light_plen)` it returns the weight added to
`partition_weight_sum` and the (weight-scaled, with
`cur_path_weight = 1`) radiance added to `partition_rad_sum` by the
corresponding branch of the inner `while` loop. -/
def strategy_contribution (env : Env) (cam_path light_path : ℕ → sampled_pathlet)
    (emission : emission_sample) (light : ℕ) (cam_plen light_plen : ℕ) : ℚ × Color3 :=
  if light_plen = 0 ∧ cam_plen = 0 then
    (1,
      match (cam_path 0).light with
      | some l => env.radiance l (cam_path 0).towards_prev (cam_path 0).vert.normal
      | none => 0)
  else if light_plen = 0 then
    let cam_join_vert := cam_path (cam_plen - 1)
    let transported_importance :=
      transport_illum_source env light emission.surface.p emission.surface.n
          cam_join_vert.vert cam_join_vert.towards_prev / emission.surface.area_dens
    let path_rad := transported_importance * transport_of env false cam_path (cam_plen - 1) /
        (cam_path 0).dens
    (1, path_rad)
  else if cam_plen = 0 then
    (0, 0)
  else
    let light_join_vert := light_path (light_plen - 1)
    let cam_join_vert := cam_path (cam_plen - 1)
    let jp := cam_join_vert.vert.vertex - light_join_vert.vert.vertex
    let join_distance := env.norm jp
    let join_path := jp / join_distance
    let cos_wo := light_join_vert.vert.normal.inner join_path
    let cos_wi := cam_join_vert.vert.normal.inner (-join_path)
    if 0 < cos_wo ∧ 0 < cos_wi ∧
        env.hasIntersect ⟨light_join_vert.vert.vertex, join_path⟩ (1 / 1000)
          (join_distance - 1 / 1000) = false then
      let light_emission :=
        env.projected_radiance light (light_path 0).towards emission.surface.n /
          ((light_path 0).dens * emission.surface.area_dens)
      let light_subpath_importance :=
        light_emission * transport_of env true light_path (light_plen - 1)
      let to_area_differential := cos_wi * cos_wo / (join_distance * join_distance)
      let light_join_weight :=
        brdf env light_join_vert.vert join_path light_join_vert.towards_prev
      let cam_join_weight :=
        brdf env cam_join_vert.vert cam_join_vert.towards_prev (-join_path)
      let transported_importance :=
        light_subpath_importance * light_join_weight * cam_join_weight * to_area_differential
      let cam_subpath_radiance :=
        transported_importance * transport_of env false cam_path (cam_plen - 1) /
          (cam_path 0).dens
      (1, cam_subpath_radiance)
    else (1, 0)

/-- Inner `while` loop of `transport_all_connectible_subpaths` for one
partition: starting from `(cam_plen, light_plen)` it decrements
`cam_plen` and increments `light_plen` until `cam_plen` would go
negative or `light_plen > max_light_path_len`, accumulating
`(partition_weight_sum, partition_rad_sum)`. -/
def partition_loop (env : Env) (cam_path light_path : ℕ → sampled_pathlet)
    (max_light_path_len : ℕ) (emission : emission_sample) (light : ℕ) :
    ℕ → ℕ → ℚ × Color3
  | 0, light_plen =>
    if max_light_path_len < light_plen then (0, 0)
    else strategy_contribution env cam_path light_path emission light 0 light_plen
  | Nat.succ c, light_plen =>
    if max_light_path_len < light_plen then (0, 0)
    else
      let cur := strategy_contribution env cam_path light_path emission light (c + 1) light_plen
      let rest := partition_loop env cam_path light_path max_light_path_len emission light c
          (light_plen + 1)
      (cur.1 + rest.1, cur.2 + rest.2)

/-- `transport_all_connectible_subpaths`: returns 0 when the camera
subpath is empty; otherwise sweeps every total path length
`plen = 1 … max_cam + max_light + 1`, runs the partition loop from the
strategy `(min (plen-1) max_cam, plen-1 - that)`, and adds
`partition_rad_sum / partition_weight_sum` whenever the weight sum is
positive. -/
def transport_all_connectible_subpaths (env : Env)
    (cam_path : ℕ → sampled_pathlet) (max_cam_path_len : ℕ)
    (light_path : ℕ → sampled_pathlet) (max_light_path_len : ℕ)
    (emission : emission_sample) (light : ℕ) : Color3 :=
  if max_cam_path_len = 0 then 0
  else
    (List.range (max_cam_path_len + max_light_path_len + 1)).foldl
      (fun rad p =>
        let plen := p + 1
        let cam_plen := min (plen - 1) max_cam_path_len
        let light_plen := plen - 1 - cam_plen
        let part := partition_loop env cam_path light_path max_light_path_len emission light
            cam_plen light_plen
        if 0 < part.1 then rad + part.2 / part.1 else rad)
      0

/-- Per-ray body of `if_path_tracer::compute_first_hit`: intersect the
ray, invalidate the record when the surface is back-facing
(`normal · (-ray.v()) <= 0`), and attach the geometry's light when the
record is valid. -/
def compute_first_hit_one (env : Env) (ray : Ray) : first_hit :=
  let it := env.intersect ray
  if it.normal.inner (-ray.dir) ≤ 0 then ⟨default, none⟩
  else if it.valid then ⟨it, env.objLight it.geo⟩
  else ⟨it, none⟩

/-- Per-pixel body of `position_tracer::sample`: the hit position
normalized inside the scene bounding box, or 0 on an invalid hit.  The
`s` argument is the RNG draw counter the source receives (and never
uses). -/
def position_tracer_pixel (env : Env) (_s : ℕ) (hit : first_hit) : Vec3 :=
  let range := env.aabbMax - env.aabbMin
  if hit.intersect.valid then (hit.intersect.vertex - env.aabbMin) / range
  else 0

/-- Per-pixel body of `normal_tracer::sample`: `(normal + 1) / 2`, or 0
on an invalid hit.  The `s` argument is the RNG draw counter the source
receives (and never uses). -/
def normal_tracer_pixel (_env : Env) (_s : ℕ) (hit : first_hit) : Vec3 :=
  if hit.intersect.valid then (hit.intersect.normal + (1 : ℚ)) / (2 : ℚ)
  else 0

/-- Per-pixel body of `direct_path_tracer::sample`: one next-event
sample plus the first-hit emitter's projected radiance, or 0 on an
invalid hit. -/
def direct_path_tracer_pixel (env : Env) (s : ℕ) (ray : Ray) (hit : first_hit) : Color3 :=
  if hit.intersect.valid then
    let d := (transport_direct_illum env s (-ray.dir) hit.intersect 1).1
    match hit.light with
    | some l => d + env.projected_radiance l (-ray.dir) hit.intersect.normal
    | none => d
  else 0

/-- `unidirect_path_tracer::sample_indirect_illum`.  The source
recursion has no static depth bound (Russian roulette terminates it
almost surely); the model makes the recursion structural on an explicit
`fuel` budget, returning 0 when the budget runs out — no claim depends
on the exhausted case. -/
def unidirect_sii (env : Env) : ℕ → ℕ → Vec3 → intersect_info → ℕ → Color3 × ℕ
  | 0, s, _, _, _ => (0, s)
  | Nat.succ fuel, s, o, vert, depth =>
    let p_survive : ℚ := if 2 ≤ depth then 1 / 2 else 1
    if 2 ≤ depth ∧ 1 / 2 ≤ env.draw s then (0, s + 1)
    else
      let s0 := if 2 ≤ depth then s + 1 else s
      let light_emission : Color3 :=
        match env.objLight vert.geo with
        | some l => env.radiance l o vert.normal
        | none => 0
      let ms := env.matSample s0 vert.geo vert.uv vert.normal o
      let s1 := s0 + 1
      if ms.2 = 0 then (light_emission / p_survive, s1)
      else
        let indirect_vert := env.intersect ⟨vert.vertex, ms.1⟩
        if indirect_vert.valid = false ∨ indirect_vert.normal.inner (-ms.1) ≤ 0 then
          (light_emission / p_survive, s1)
        else
          let rec_val := unidirect_sii env fuel s1 (-ms.1) indirect_vert (depth + 1)
          let cos_w := vert.normal.inner ms.1
          let indirect := rec_val.1 * brdf env vert o ms.1 * cos_w / ms.2
          ((light_emission + indirect) / p_survive, rec_val.2)

/-- Per-pixel body of `unidirect_path_tracer::sample`. -/
def unidirect_pixel (env : Env) (fuel s : ℕ) (ray : Ray) (hit : first_hit) : Color3 :=
  if hit.intersect.valid then (unidirect_sii env fuel s (-ray.dir) hit.intersect 0).1
  else 0

/-- Splitting loop of `unidirect_lt1_path_tracer::sample_indirect_illum`
(`for k < multi_indirect_samps` with early `break` on a degenerate
sample, a miss or a back-face); `recur` is the recursive call at
`depth + 1`. -/
def lt1_indirect_loop (env : Env) (recur : ℕ → Vec3 → intersect_info → Color3 × ℕ)
    (o : Vec3) (vert : intersect_info) : ℕ → ℕ → Color3 × ℕ
  | 0, s => (0, s)
  | Nat.succ k, s =>
    let ms := env.matSample s vert.geo vert.uv vert.normal o
    let s1 := s + 1
    if ms.2 = 0 then (0, s1)
    else
      let indirect_vert := env.intersect ⟨vert.vertex, ms.1⟩
      if indirect_vert.valid = false ∨ indirect_vert.normal.inner (-ms.1) ≤ 0 then (0, s1)
      else
        let r := recur s1 (-ms.1) indirect_vert
        let term := r.1 * brdf env vert o ms.1 * (vert.normal.inner ms.1) / ms.2
        let rest := lt1_indirect_loop env recur o vert k r.2
        (term + rest.1, rest.2)

/-- `unidirect_lt1_path_tracer::sample_indirect_illum`, with the same
explicit `fuel` budget as `unidirect_sii`. -/
def lt1_sii (env : Env) : ℕ → ℕ → Vec3 → intersect_info → ℕ → ℕ → ℕ → Color3 × ℕ
  | 0, s, _, _, _, _, _ => (0, s)
  | Nat.succ fuel, s, o, vert, depth, multi_light_samps, multi_indirect_samps =>
    let p_survive : ℚ := if 2 ≤ depth then 1 / 2 else 1
    if 2 ≤ depth ∧ 1 / 2 ≤ env.draw s then (0, s + 1)
    else
      let s0 := if 2 ≤ depth then s + 1 else s
      let samps := if 1 ≤ depth then 1 else multi_indirect_samps
      let d := transport_direct_illum env s0 o vert multi_light_samps
      let mi := lt1_indirect_loop env
          (fun s' i' iv => lt1_sii env fuel s' i' iv (depth + 1) multi_light_samps
            multi_indirect_samps)
          o vert samps d.2
      ((d.1 + mi.1 / (samps : ℚ)) / p_survive, mi.2)

/-- Per-pixel body of `unidirect_lt1_path_tracer::sample`: the
recursive estimator with one light sample and one indirect split, plus
the primary-hit emitter's `radiance` when present. -/
def lt1_pixel (env : Env) (fuel s : ℕ) (ray : Ray) (hit : first_hit) : Color3 :=
  if hit.intersect.valid then
    let r := lt1_sii env fuel s (-ray.dir) hit.intersect 0 1 1
    match hit.light with
    | some l => r.1 + env.radiance l (-ray.dir) hit.intersect.normal
    | none => r.1
  else 0

/-- `bidirect_lt2_path_tracer::join_with_light_paths`: the two-strategy
combination at one camera vertex.  `p1_direct` is one next-event sample;
`p2_direct` is the one-bounce light-path connection.  Returns the
combined value and the advanced draw counter. -/
def join_with_light_paths (env : Env) (s : ℕ) (o : Vec3) (poi : intersect_info)
    (cam_path_len : ℕ) : Color3 × ℕ :=
  let p1d := transport_direct_illum env s o poi 1
  let p1_direct := p1d.1
  let lp := env.sampleLight p1d.2
  let emission := env.sampleEmission (p1d.2 + 1) lp.1
  let s2 := p1d.2 + 2
  let light_info := env.intersect ⟨emission.surface.p, emission.w⟩
  if light_info.valid = false then (0, s2)
  else
    let light_illum :=
      env.projected_radiance lp.1 emission.w emission.surface.n /
        (lp.2 * emission.surface.area_dens * emission.solid_angle_dens)
    let terminate := light_info
    let tray := -emission.w
    let jp := poi.vertex - terminate.vertex
    let distance := env.norm jp
    let join_path := jp / distance
    let cos_w2 := terminate.normal.inner tray
    let cos_wo := terminate.normal.inner join_path
    let cos_wi := poi.normal.inner (-join_path)
    if 0 < cos_wo ∧ 0 < cos_wi ∧ 0 < cos_w2 ∧
        env.hasIntersect ⟨terminate.vertex, join_path⟩ (1 / 10000) (distance - 1 / 1000)
          = false then
      let f2 := light_illum * brdf env terminate join_path tray * cos_w2
      let p2_direct :=
        f2 * cos_wo / (distance * distance) * brdf env poi o (-join_path) * cos_wi
      if cam_path_len = 0 then (p1_direct + (1 / 2 : ℚ) * p2_direct, s2)
      else ((1 / 2 : ℚ) * (p1_direct + p2_direct), s2)
    else (p1_direct, s2)

/-- `bidirect_lt2_path_tracer::sample_indirect_illum`, with an explicit
`fuel` budget for the Russian-roulette recursion as in `unidirect_sii`.
The third component of the result instruments the one division the
source performs without a density guard: it is `true` exactly when some
executed evaluation of `indirect * brdf(...) * cos_w / mat_pdf` had
`mat_pdf = 0` (a division by zero, `Inf`/`NaN` in the source's floats;
the rational model records the event instead, since `ℚ` has no
infinities). -/
def lt2_sii (env : Env) : ℕ → ℕ → Vec3 → intersect_info → ℕ → Color3 × ℕ × Bool
  | 0, s, _, _, _ => (0, s, false)
  | Nat.succ fuel, s, o, vert, depth =>
    let p_survive : ℚ := if 1 ≤ depth then 1 / 2 else 1
    if 1 ≤ depth ∧ 1 / 2 ≤ env.draw s then (0, s + 1, false)
    else
      let s0 := if 1 ≤ depth then s + 1 else s
      let bj := join_with_light_paths env s0 o vert depth
      let ms := env.matSample bj.2 vert.geo vert.uv vert.normal o
      let s1 := bj.2 + 1
      let indirect_info := env.intersect ⟨vert.vertex, ms.1⟩
      if indirect_info.valid then
        let rec_val := lt2_sii env fuel s1 (-ms.1) indirect_info (depth + 1)
        let cos_w := vert.normal.inner ms.1
        if cos_w < 0 then (0, rec_val.2.1, rec_val.2.2)
        else
          let r := rec_val.1 * brdf env vert o ms.1 * cos_w / ms.2
          ((bj.1 + r) / p_survive, rec_val.2.1, rec_val.2.2 || decide (ms.2 = 0))
      else ((bj.1 + 0) / p_survive, s1, false)

/-- Per-pixel body of `bidirect_lt2_path_tracer::sample`: the recursive
estimator plus the primary-hit emitter's `projected_radiance` when
present. -/
def lt2_pixel (env : Env) (fuel s : ℕ) (ray : Ray) (hit : first_hit) : Color3 :=
  if hit.intersect.valid then
    let r := lt2_sii env fuel s (-ray.dir) hit.intersect 0
    match hit.light with
    | some l => r.1 + env.projected_radiance l (-ray.dir) hit.intersect.normal
    | none => r.1
  else 0

/-- Per-pixel body of `bidirect_mis_path_tracer::sample`: build the
camera subpath from the pixel's first hit, sample a light emission
(`sample_illum_source` scales the area density by the selection
probability mass), build the light subpath with pathlet-0 density the
emission's solid-angle density, and combine all connectible subpaths. -/
def bidirect_mis_pixel (env : Env) (s : ℕ) (ray : Ray) (hit : first_hit)
    (max_path_len : ℕ) : Color3 :=
  let cam := sample_path_from_first_hit env s ray hit max_path_len
  let lp := env.sampleLight cam.2
  let em0 := env.sampleEmission (cam.2 + 1) lp.1
  let emission : emission_sample :=
    ⟨⟨em0.surface.p, em0.surface.n, em0.surface.area_dens * lp.2⟩, em0.w,
      em0.solid_angle_dens⟩
  let light_path := sample_path_from_ray env (cam.2 + 2) ⟨emission.surface.p, emission.w⟩
      emission.solid_angle_dens max_path_len
  transport_all_connectible_subpaths env (fun k => cam.1.getD k default) cam.1.length
    (fun k => light_path.1.getD k default) light_path.1.length emission lp.1

/-!
Concrete environments used to evaluate the model on explicit inputs.
`trivEnv` is an all-trivial base; the others override only the oracles a
particular scenario exercises.
-/

/-- Base concrete environment: every oracle constant and trivial. -/
def trivEnv : Env where
  intersect := fun _ => default
  hasIntersect := fun _ _ _ => false
  aabbMin := 0
  aabbMax := 1
  matEval := fun _ _ _ _ _ => 0
  matSample := fun _ _ _ _ _ => (0, 0)
  draw := fun _ => 0
  sampleLight := fun _ => (0, 1)
  objLight := fun _ => none
  lightEval := fun _ _ _ _ => 0
  radiance := fun _ _ _ => 0
  projected_radiance := fun _ _ _ => 0
  sampleEmissionSurface := fun _ _ => ⟨0, 0, 1⟩
  sampleEmission := fun _ _ => ⟨⟨0, 0, 1⟩, 0, 1⟩
  norm := fun _ => 1

/-- Environment with a BRDF that is not symmetric in its two direction
arguments, to separate the two evaluation orders. -/
def envAsym : Env :=
  { trivEnv with
    matEval := fun _ _ _ wo _ => if wo = ⟨1, 0, 0⟩ then 1 else ⟨2, 2, 2⟩ }

/-- Valid front-facing intersection record with normal `(0,1,0)`. -/
def vertA : intersect_info := ⟨true, 0, ⟨0, 1, 0⟩, ⟨0, 0⟩, 1, 0⟩

/-- Two-pathlet probe path: pathlet 0 points back along `(1,0,0)`,
pathlet 1 along `(0,-1,0)` with unit density. -/
def probePath : ℕ → sampled_pathlet := fun k =>
  if k = 0 then ⟨⟨1, 0, 0⟩, 1, vertA, none⟩ else ⟨⟨0, -1, 0⟩, 1, vertA, none⟩

/-- C1 counterexample: in the precomputed throughputs, the camera-side
recurrence (the `IMPORTANCE = false` instantiation of
`light_transport_info`, used for `cam_transport`) does NOT multiply by
the claimed evaluation `f_r(cam[k], cam[k+1].towards(),
cam[k].towards_prev())`, and the light-side recurrence
(`IMPORTANCE = true`, used for `light_transport`) does NOT multiply by
the claimed `f_r(light[k], light[k].towards_prev(),
light[k+1].towards())`: on a concrete asymmetric BRDF and a concrete
two-pathlet path both claimed recurrences give `(2,2,2)` while the code
computes `(1,1,1)` (and vice versa).  The source's argument orders are
exactly the opposite of the claim's, because the constructor multiplies
by `projected_brdf` when `IMPORTANCE` holds and by
`projected_adjoint_brdf` otherwise. -/
theorem C1_counterexample :
    transport_of envAsym false probePath 1 ≠
      transport_of envAsym false probePath 0 *
        ((envAsym.matEval (probePath 0).vert.geo (probePath 0).vert.uv
            (probePath 0).vert.normal (probePath 1).towards (probePath 0).towards_prev *
          ((probePath 0).vert.normal.inner (probePath 1).towards)) /
          (probePath 1).dens) ∧
    transport_of envAsym true probePath 1 ≠
      transport_of envAsym true probePath 0 *
        ((envAsym.matEval (probePath 0).vert.geo (probePath 0).vert.uv
            (probePath 0).vert.normal (probePath 0).towards_prev (probePath 1).towards *
          ((probePath 0).vert.normal.inner (probePath 1).towards)) /
          (probePath 1).dens) := by
  constructor <;>
    norm_num [transport_of, projected_brdf, projected_adjoint_brdf, envAsym, trivEnv,
      probePath, vertA, sampled_pathlet.towards, sampled_pathlet.towards_prev]

/-- C1 (amended): for every path and every `k`, the camera-side
throughput (`IMPORTANCE = false`) satisfies
`cam_transport[k+1] = cam_transport[k] · f_r(cam[k],
cam[k].towards_prev(), cam[k+1].towards()) · (n_cam[k] ·
cam[k+1].towards()) / cam[k+1].dens` — the evaluation order of the
source's `projected_adjoint_brdf` — while the light-side throughput
(`IMPORTANCE = true`) uses the swapped order `f_r(light[k],
light[k+1].towards(), light[k].towards_prev())` of the source's
`projected_brdf`; each recurrence's argument order is the opposite of
the one the claim states. -/
theorem C1_throughput_recurrences (env : Env) (path : ℕ → sampled_pathlet) (k : ℕ) :
    transport_of env false path (k + 1) =
      transport_of env false path k *
        ((env.matEval (path k).vert.geo (path k).vert.uv (path k).vert.normal
            (path k).towards_prev (path (k + 1)).towards *
          ((path k).vert.normal.inner (path (k + 1)).towards)) / (path (k + 1)).dens) ∧
    transport_of env true path (k + 1) =
      transport_of env true path k *
        ((env.matEval (path k).vert.geo (path k).vert.uv (path k).vert.normal
            (path (k + 1)).towards (path k).towards_prev *
          ((path k).vert.normal.inner (path (k + 1)).towards)) / (path (k + 1)).dens) := by
  exact ⟨rfl, rfl⟩

/-- Success condition of the `p2` connection in `join_with_light_paths`:
the three cosines positive (in the source's order `cos_wo`, `cos_wi`,
`cos_w2`) and the join segment unoccluded. -/
def lt2_connection_ok (env : Env) (emission : emission_sample)
    (poi : intersect_info) : Prop :=
  let light_info := env.intersect ⟨emission.surface.p, emission.w⟩
  let tray := -emission.w
  let jp := poi.vertex - light_info.vertex
  let distance := env.norm jp
  let join_path := jp / distance
  0 < light_info.normal.inner join_path ∧ 0 < poi.normal.inner (-join_path) ∧
    0 < light_info.normal.inner tray ∧
    env.hasIntersect ⟨light_info.vertex, join_path⟩ (1 / 10000) (distance - 1 / 1000) = false

instance (env : Env) (emission : emission_sample) (poi : intersect_info) :
    Decidable (lt2_connection_ok env emission poi) := by
  unfold lt2_connection_ok
  infer_instance

/-- Value of the successful `p2_direct` connection of
`join_with_light_paths` (`lp` is the `sample_light` result): the
source's `f2 * cos_wo / distance² * brdf(poi, o, -join) * cos_wi` with
`f2 = light_illum * brdf(terminate, join, tray) * cos_w2`. -/
def lt2_p2_direct (env : Env) (lp : ℕ × ℚ) (emission : emission_sample)
    (poi : intersect_info) (o : Vec3) : Color3 :=
  let light_info := env.intersect ⟨emission.surface.p, emission.w⟩
  let light_illum :=
    env.projected_radiance lp.1 emission.w emission.surface.n /
      (lp.2 * emission.surface.area_dens * emission.solid_angle_dens)
  let tray := -emission.w
  let jp := poi.vertex - light_info.vertex
  let distance := env.norm jp
  let join_path := jp / distance
  let f2 := light_illum * brdf env light_info join_path tray *
      (light_info.normal.inner tray)
  f2 * (light_info.normal.inner join_path) / (distance * distance) *
    brdf env poi o (-join_path) * (poi.normal.inner (-join_path))

/-- Environment in which the `p2` connection of `join_with_light_paths`
fails its cosine test while next-event estimation sees an unoccluded
unit-strength light: the emitted ray hits a vertex whose normal points
along the emission direction, so `cos_w2 < 0`. -/
def envConnFail : Env :=
  { trivEnv with
    intersect := fun _ => ⟨true, 0, ⟨0, 0, 1⟩, ⟨0, 0⟩, 1, 0⟩,
    lightEval := fun _ _ _ _ => 1,
    matEval := fun _ _ _ _ _ => 1,
    projected_radiance := fun _ _ _ => 1,
    sampleEmission := fun _ _ => ⟨⟨0, ⟨0, 0, 1⟩, 1⟩, ⟨0, 0, 1⟩, 1⟩ }

/-- Camera vertex probed by the failing connection: sits at `(0,0,1)`
facing the light vertex at the origin. -/
def poiConn : intersect_info := ⟨true, ⟨0, 0, 1⟩, ⟨0, 0, -1⟩, ⟨0, 0⟩, 1, 0⟩

/-- C2 counterexample: at a non-primary vertex (`cam_path_len = 1`)
whose `p2` connection fails (here `cos_w2 = -1`), the source returns the
full `p1_direct` — here `(1,1,1)` — not the claimed
`(p1_direct + 0) / 2 = (1/2, 1/2, 1/2)`; the next-event term is NOT
retained with weight `1/2` when the connection fails. -/
theorem C2_counterexample :
    (join_with_light_paths envConnFail 0 ⟨0, 0, 1⟩ poiConn 1).1 ≠
      (1 / 2 : ℚ) * ((transport_direct_illum envConnFail 0 ⟨0, 0, 1⟩ poiConn 1).1 + 0) := by
  norm_num [join_with_light_paths, transport_direct_illum, tdi_loop, sample_light_source,
    transport_illum_source, brdf, envConnFail, trivEnv, poiConn]

/-- C2 (amended): at every non-primary vertex (`cam_path_len = c + 1`),
the two-strategy combination of `bidirect_lt2` returns
`(p1_direct + p2_direct) / 2` when the `p2` connection succeeds, the
full-weight `p1_direct` when the emitted ray finds a valid vertex but a
cosine is non-positive or the join segment is occluded, and `0` —
discarding `p1_direct` — when the emitted light ray finds no valid
vertex. -/
theorem C2_lt2_two_strategy_combination (env : Env) (s : ℕ) (o : Vec3)
    (poi : intersect_info) (c : ℕ) :
    (join_with_light_paths env s o poi (c + 1)).1 =
      (let p1d := transport_direct_illum env s o poi 1
       let lp := env.sampleLight p1d.2
       let emission := env.sampleEmission (p1d.2 + 1) lp.1
       if (env.intersect ⟨emission.surface.p, emission.w⟩).valid = false then 0
       else if lt2_connection_ok env emission poi then
         (1 / 2 : ℚ) * (p1d.1 + lt2_p2_direct env lp emission poi o)
       else p1d.1) := by
  simp only [join_with_light_paths, lt2_connection_ok, lt2_p2_direct]
  split_ifs <;> simp_all

/-- Valid front-facing hit on an emissive geometry (handle `7`). -/
def vertEmissive : intersect_info := ⟨true, 0, ⟨0, 0, 1⟩, ⟨0, 0⟩, 1, 7⟩

/-- Environment in which every ray hits the emissive geometry `7`,
whose attached light is `3`. -/
def envEmissive : Env :=
  { trivEnv with
    intersect := fun _ => vertEmissive,
    objLight := fun g => if g = 7 then some 3 else none }

/-- Downward probe ray that front-faces `vertEmissive`. -/
def rayDown : Ray := ⟨⟨0, 0, 5⟩, ⟨0, 0, -1⟩⟩

/-- C3 counterexample: in the `dens0` entry form of `sample_path`, the
bootstrap ray hits a geometry that carries an emitter
(`obj_light = some 3`), yet pathlet 0 is written with `light = none` —
the source passes `/*light=*/nullptr` unconditionally — contradicting
the claim that pathlet 0's `light` is the emitter attached to the first
hit's geometry when that geometry is emissive. -/
theorem C3_counterexample :
    (envEmissive.intersect rayDown).valid = true ∧
    envEmissive.objLight (envEmissive.intersect rayDown).geo = some 3 ∧
    ((sample_path_from_ray envEmissive 0 rayDown 1 1).1.headD default).light = none := by
  refine ⟨rfl, by norm_num [envEmissive, trivEnv, vertEmissive, rayDown], ?_⟩
  norm_num [sample_path_from_ray, sample_path_core, envEmissive, trivEnv, vertEmissive,
    rayDown]

/-- C3 (amended): whenever the bootstrap ray of the `dens0` entry form
of `sample_path` produces a pathlet 0, that pathlet carries
`v = -r0.v()`, `vert` = the first hit, `dens = dens0` and
`light = none` unconditionally — never the first hit's emitter; only
the first-hit entry form carries a light, namely the caller-supplied
`hit.light` (with `dens = 1`).  The entry forms otherwise differ only
in how pathlet 0's density is bootstrapped. -/
theorem C3_pathlet0 (env : Env) (s : ℕ) (r0 : Ray) (dens0 : ℚ) (hit : first_hit)
    (m : ℕ) (p q : sampled_pathlet) :
    ((sample_path_from_ray env s r0 dens0 m).1.head? = some p →
      p.v = -r0.dir ∧ p.vert = env.intersect r0 ∧ p.dens = dens0 ∧ p.light = none) ∧
    ((sample_path_from_first_hit env s r0 hit m).1.head? = some q →
      q.v = -r0.dir ∧ q.vert = hit.intersect ∧ q.dens = 1 ∧ q.light = hit.light) := by
  constructor
  · intro h
    simp only [sample_path_from_ray] at h
    split_ifs at h with hc
    · simp at h
    · simp only [List.head?_cons, Option.some.injEq] at h
      subst h
      exact ⟨rfl, rfl, rfl, rfl⟩
  · intro h
    simp only [sample_path_from_first_hit] at h
    split_ifs at h with hc
    · simp at h
    · simp only [List.head?_cons, Option.some.injEq] at h
      subst h
      exact ⟨rfl, rfl, rfl, rfl⟩

/-- Witness for C3's amended theorem: the concrete emissive-scene walk
has a pathlet 0 and it satisfies the stated shape for both entry
forms. -/
theorem C3_pathlet0_witness :
    ((⟨⟨0, 0, 1⟩, 1, vertEmissive, none⟩ : sampled_pathlet).v = -rayDown.dir ∧
      (⟨⟨0, 0, 1⟩, 1, vertEmissive, none⟩ : sampled_pathlet).vert =
        envEmissive.intersect rayDown ∧
      (⟨⟨0, 0, 1⟩, 1, vertEmissive, none⟩ : sampled_pathlet).dens = 1 ∧
      (⟨⟨0, 0, 1⟩, 1, vertEmissive, none⟩ : sampled_pathlet).light = none) ∧
    ((⟨⟨0, 0, 1⟩, 1, vertEmissive, some 3⟩ : sampled_pathlet).v = -rayDown.dir ∧
      (⟨⟨0, 0, 1⟩, 1, vertEmissive, some 3⟩ : sampled_pathlet).vert =
        (⟨vertEmissive, some 3⟩ : first_hit).intersect ∧
      (⟨⟨0, 0, 1⟩, 1, vertEmissive, some 3⟩ : sampled_pathlet).dens = 1 ∧
      (⟨⟨0, 0, 1⟩, 1, vertEmissive, some 3⟩ : sampled_pathlet).light =
        (⟨vertEmissive, some 3⟩ : first_hit).light) := by
  constructor
  · exact (C3_pathlet0 envEmissive 0 rayDown 1 ⟨vertEmissive, some 3⟩ 1
      ⟨⟨0, 0, 1⟩, 1, vertEmissive, none⟩ ⟨⟨0, 0, 1⟩, 1, vertEmissive, some 3⟩).1
      (by norm_num [sample_path_from_ray, sample_path_core, envEmissive, trivEnv,
        vertEmissive, rayDown])
  · exact (C3_pathlet0 envEmissive 0 rayDown 1 ⟨vertEmissive, some 3⟩ 1
      ⟨⟨0, 0, 1⟩, 1, vertEmissive, none⟩ ⟨⟨0, 0, 1⟩, 1, vertEmissive, some 3⟩).2
      (by norm_num [sample_path_from_first_hit, sample_path_core, envEmissive, trivEnv,
        vertEmissive, rayDown])

/-- Helper: every strategy with `cam_plen ≥ 1` adds weight 1 to the
partition weight sum (both `light_plen = 0` and the join branch do so
whether or not the connection succeeds). -/
theorem strategy_weight_succ (env : Env) (cP lP : ℕ → sampled_pathlet)
    (em : emission_sample) (lg c l : ℕ) :
    (strategy_contribution env cP lP em lg (c + 1) l).1 = 1 := by
  simp only [strategy_contribution]
  rw [if_neg (by omega : ¬(l = 0 ∧ c + 1 = 0))]
  by_cases h2 : l = 0
  · rw [if_pos h2]
  · rw [if_neg h2, if_neg (by omega : ¬(c + 1 = 0))]
    split_ifs <;> rfl

/-- Helper: the `cam_plen = 0, light_plen ≥ 1` strategy adds neither
weight nor radiance (the source's branch is an empty statement). -/
theorem strategy_weight_cam_zero (env : Env) (cP lP : ℕ → sampled_pathlet)
    (em : emission_sample) (lg l : ℕ) (hl : l ≠ 0) :
    strategy_contribution env cP lP em lg 0 l = (0, 0) := by
  obtain ⟨l', rfl⟩ : ∃ l', l = l' + 1 := ⟨l - 1, by omega⟩
  simp [strategy_contribution]

/-- Helper: the partition loop exits immediately once
`light_plen > max_light_path_len`. -/
theorem partition_loop_stop (env : Env) (cP lP : ℕ → sampled_pathlet)
    (maxL : ℕ) (em : emission_sample) (lg c l : ℕ) (h : maxL < l) :
    partition_loop env cP lP maxL em lg c l = (0, 0) := by
  cases c <;> simp only [partition_loop] <;> rw [if_pos h]

/-- Weight actually accumulated by the source's partition loop started
at `(cam_plen, light_plen) = (c, l)`: one unit per enumerated strategy
with `cam_plen ≥ 1`, plus one unit for the `(0, 0)` strategy if it is
reached — the `cam_plen = 0, light_plen ≥ 1` strategy contributes no
weight. -/
def code_partition_weight (maxL c l : ℕ) : ℕ :=
  if c + l ≤ maxL then c + (if l + c = 0 then 1 else 0) else min c (maxL - l) + 1

/-- Number of strategies `(cam_plen, light_plen)` the claim says are
all weighted equally in the partition of total path length `plen`:
pairs with `cam_plen + light_plen = plen - 1`, `0 ≤ cam_plen ≤ max_cam`
and `0 ≤ light_plen ≤ max_light`. -/
def claimed_strategy_count (max_cam max_light plen : ℕ) : ℕ :=
  min (plen - 1) max_cam + 1 - (plen - 1 - max_light)

/-- C4 counterexample: with a one-pathlet camera path and a one-pathlet
light path (`max_cam = max_light = 1`), the partition of total length
`plen = 2` enumerates the two strategies `(1,0)` and `(0,1)`; the claim
says both add their weight, giving `W = 2`, but the source accumulates
only `W = 1` because the `cam_plen = 0` branch is an empty statement
that skips the weight update. -/
theorem C4_counterexample :
    (partition_loop trivEnv (fun _ => default) (fun _ => default) 1
        ⟨⟨0, 0, 1⟩, 0, 1⟩ 0 1 0).1 ≠ (claimed_strategy_count 1 1 2 : ℚ) := by
  norm_num [partition_loop, strategy_contribution, transport_illum_source, transport_of,
    brdf, trivEnv, claimed_strategy_count, sampled_pathlet.towards_prev]

/-- C4 (amended): inside one path-length partition, every enumerated
strategy with `cam_plen ≥ 1` adds weight 1 to `partition_weight_sum`
together with its (possibly zero) contribution, and so does the
`(0, 0)` direct-emitter strategy, but the `cam_plen = 0,
light_plen ≥ 1` strategy is skipped entirely — it adds neither weight
nor contribution, so the partition divides by the number of
`cam_plen ≥ 1` strategies (plus one for the length-1 partition), not by
the claimed total number of enumerated strategies. -/
theorem C4_partition_weight (env : Env) (cP lP : ℕ → sampled_pathlet)
    (maxL : ℕ) (em : emission_sample) (lg : ℕ) :
    (∀ c l, l ≤ maxL →
      (partition_loop env cP lP maxL em lg c l).1 = (code_partition_weight maxL c l : ℚ)) ∧
    (∀ l, 1 ≤ l → strategy_contribution env cP lP em lg 0 l = (0, 0)) := by
  constructor
  · intro c
    induction c with
    | zero =>
      intro l hl
      simp only [partition_loop]
      rw [if_neg (by omega)]
      cases l with
      | zero =>
        simp only [strategy_contribution, code_partition_weight]
        norm_num
      | succ l' =>
        rw [strategy_weight_cam_zero env cP lP em lg _ (by omega)]
        have hw : code_partition_weight maxL 0 (l' + 1) = 0 := by
          unfold code_partition_weight
          simp only [Nat.min_def]
          split_ifs <;> first | omega | simp_all
        rw [hw]
        norm_num
    | succ c ih =>
      intro l hl
      simp only [partition_loop]
      rw [if_neg (by omega)]
      by_cases hl2 : l + 1 ≤ maxL
      · have hrec := ih (l + 1) hl2
        have hw : code_partition_weight maxL (c + 1) l =
            1 + code_partition_weight maxL c (l + 1) := by
          unfold code_partition_weight
          simp only [Nat.min_def]
          split_ifs <;> omega
        simp only [strategy_weight_succ, hrec, hw]
        push_cast
        ring
      · rw [strategy_weight_succ,
          partition_loop_stop env cP lP maxL em lg c (l + 1) (by omega)]
        have hw : code_partition_weight maxL (c + 1) l = 1 := by
          unfold code_partition_weight
          simp only [Nat.min_def]
          split_ifs <;> omega
        rw [hw]
        norm_num
  · intro l hl
    exact strategy_weight_cam_zero env cP lP em lg l (by omega)

/-- Witness for C4's amended theorem at a concrete instantiation: the
`(1, 0)`-rooted partition of the two-pathlet scenario has weight 1, and
the `(0, 1)` strategy is skipped. -/
theorem C4_partition_weight_witness :
    (partition_loop trivEnv (fun _ => default) (fun _ => default) 1
        ⟨⟨0, 0, 1⟩, 0, 1⟩ 0 1 0).1 = (code_partition_weight 1 1 0 : ℚ) ∧
    strategy_contribution trivEnv (fun _ => default) (fun _ => default)
        ⟨⟨0, 0, 1⟩, 0, 1⟩ 0 0 1 = (0, 0) := by
  constructor
  · exact (C4_partition_weight trivEnv (fun _ => default) (fun _ => default) 1
      ⟨⟨0, 0, 1⟩, 0, 1⟩ 0).1 1 0 (by omega)
  · exact (C4_partition_weight trivEnv (fun _ => default) (fun _ => default) 1
      ⟨⟨0, 0, 1⟩, 0, 1⟩ 0).2 1 (by omega)

/-- Environment in which the BRDF importance sample reports zero
projected density (`pdf == 0`) while the sampled direction still hits a
valid vertex with non-negative cosine, and Russian roulette kills the
next recursion level. -/
def envZeroPdf : Env :=
  { trivEnv with
    intersect := fun _ => ⟨true, 0, ⟨0, 0, 1⟩, ⟨0, 0⟩, 1, 0⟩,
    lightEval := fun _ _ _ _ => 1,
    matEval := fun _ _ _ _ _ => 1,
    projected_radiance := fun _ _ _ => 1,
    matSample := fun _ _ _ _ _ => (⟨0, 0, -1⟩, 0),
    draw := fun _ => 1,
    sampleEmission := fun _ _ => ⟨⟨0, ⟨0, 0, 1⟩, 1⟩, ⟨0, 0, 1⟩, 1⟩ }

/-- Camera vertex at `(0,0,1)` with normal `(0,0,-1)`: the sampled
direction `(0,0,-1)` has cosine `1 ≥ 0` there, so `bidirect_lt2`
reaches the division `indirect * brdf * cos_w / mat_pdf`. -/
def poiZeroPdf : intersect_info := ⟨true, ⟨0, 0, 1⟩, ⟨0, 0, -1⟩, ⟨0, 0⟩, 1, 0⟩

/-- C5: `bidirect_lt2_path_tracer::sample_indirect_illum` evaluates the
code at a failing input: the material sample reports `mat_pdf = 0`, the
intersection at the sampled direction is valid and the cosine is
non-negative, and the source divides the indirect contribution by the
zero density (an `Inf`/`NaN` in its IEEE floats) instead of terminating
the walk as the specification requires and as the unidirectional
integrators do — the instrumentation flag of the model records the
executed division by zero. -/
theorem C5_lt2_divides_by_zero_density :
    (lt2_sii envZeroPdf 2 0 ⟨0, 0, 1⟩ poiZeroPdf 0).2.2 = true := by
  norm_num [lt2_sii, join_with_light_paths, transport_direct_illum, tdi_loop,
    sample_light_source, transport_illum_source, brdf, envZeroPdf, trivEnv, poiZeroPdf]

/-- Helper: the accumulation loop of `transport_direct_illum` equals the
indexed sum of per-sample values (sample `k` starts at draw counter
`s + 2k`). -/
theorem tdi_loop_eq_sum (env : Env) (o : Vec3) (vert : intersect_info) :
    ∀ (N s : ℕ), (tdi_loop env o vert N s).1 =
      (Finset.range N).sum fun k => direct_illum_sample_value env (s + 2 * k) o vert := by
  intro N
  induction N with
  | zero => intro s; simp [tdi_loop]
  | succ n ih =>
    intro s
    rw [Finset.sum_range_succ']
    have harg : ∀ k : ℕ, s + 2 * (k + 1) = (s + 2) + 2 * k := by intro k; ring
    simp only [tdi_loop, harg, ih (s + 2)]
    have hterm : transport_illum_source env (sample_light_source env s).light
        (sample_light_source env s).p (sample_light_source env s).n vert o /
        (sample_light_source env s).area_dens =
        direct_illum_sample_value env (s + 2 * 0) o vert := by
      simp only [Nat.mul_zero, Nat.add_zero, direct_illum_sample_value,
        transport_illum_source]
      split_ifs <;> simp
    rw [hterm]
    exact add_comm _ _

/-- C6: `transport_direct_illum` returns the average over the `N` light
samples of the per-sample value: `0` when the light's `eval` is zero or
the shadow segment `[1e-4, distance - 1e-3]` is occluded, and otherwise
`illum · f_r(vert, o, i)` with no additional geometric factor, each
sample divided by the light-selection-scaled area density. -/
theorem C6_direct_illum_average (env : Env) (s : ℕ) (target_o_ray : Vec3)
    (target_vert : intersect_info) (multi_light_samps : ℕ) :
    (transport_direct_illum env s target_o_ray target_vert multi_light_samps).1 =
      ((Finset.range multi_light_samps).sum fun k =>
        direct_illum_sample_value env (s + 2 * k) target_o_ray target_vert) /
        (multi_light_samps : ℚ) := by
  simp only [transport_direct_illum]
  rw [tdi_loop_eq_sum]

/-- C7: for every pixel whose first hit is invalid — however it became
invalid — every integrator returns exactly `(0,0,0)`: the per-pixel
guard leaves the default-initialized zero radiance in the position,
normal, direct, unidirectional, lt1 and lt2 tracers, and the
bidirectional MIS tracer builds a zero-length camera subpath whose
`max_cam_path_len == 0` guard makes
`transport_all_connectible_subpaths` return 0.  The two final
implications show that both invalidation routes of the first-hit pass
feed this case: a path-space miss (every pixel of an empty scene) and
the back-face rule (`normal · (-ray.v()) <= 0`) each yield an invalid
first hit. -/
theorem C7_invalid_first_hit_zero (env : Env) (fuel s maxLen : ℕ) (ray : Ray)
    (hit : first_hit) (h : hit.intersect.valid = false) :
    position_tracer_pixel env s hit = 0 ∧
    normal_tracer_pixel env s hit = 0 ∧
    direct_path_tracer_pixel env s ray hit = 0 ∧
    unidirect_pixel env fuel s ray hit = 0 ∧
    lt1_pixel env fuel s ray hit = 0 ∧
    lt2_pixel env fuel s ray hit = 0 ∧
    bidirect_mis_pixel env s ray hit maxLen = 0 ∧
    ((env.intersect ray).valid = false →
      (compute_first_hit_one env ray).intersect.valid = false) ∧
    ((env.intersect ray).normal.inner (-ray.dir) ≤ 0 →
      (compute_first_hit_one env ray).intersect.valid = false) := by
  refine ⟨?_, ?_, ?_, ?_, ?_, ?_, ?_, ?_, ?_⟩
  · simp [position_tracer_pixel, h]
  · simp [normal_tracer_pixel, h]
  · simp [direct_path_tracer_pixel, h]
  · simp [unidirect_pixel, h]
  · simp [lt1_pixel, h]
  · simp [lt2_pixel, h]
  · simp [bidirect_mis_pixel, sample_path_from_first_hit, h,
      transport_all_connectible_subpaths]
  · intro hmiss
    simp only [compute_first_hit_one]
    split_ifs <;> first | rfl | simp_all
  · intro hback
    simp only [compute_first_hit_one]
    rw [if_pos hback]
    rfl

/-- Witness for C7 at a concrete invalid first hit in the trivial
environment, with both first-hit-pass implications discharged there. -/
theorem C7_invalid_first_hit_zero_witness :
    position_tracer_pixel trivEnv 0 ⟨default, none⟩ = 0 ∧
    normal_tracer_pixel trivEnv 0 ⟨default, none⟩ = 0 ∧
    direct_path_tracer_pixel trivEnv 0 ⟨0, 0⟩ ⟨default, none⟩ = 0 ∧
    unidirect_pixel trivEnv 0 0 ⟨0, 0⟩ ⟨default, none⟩ = 0 ∧
    lt1_pixel trivEnv 0 0 ⟨0, 0⟩ ⟨default, none⟩ = 0 ∧
    lt2_pixel trivEnv 0 0 ⟨0, 0⟩ ⟨default, none⟩ = 0 ∧
    bidirect_mis_pixel trivEnv 0 ⟨0, 0⟩ ⟨default, none⟩ 0 = 0 ∧
    (compute_first_hit_one trivEnv ⟨0, 0⟩).intersect.valid = false ∧
    (compute_first_hit_one trivEnv ⟨0, 0⟩).intersect.valid = false := by
  have hmain := C7_invalid_first_hit_zero trivEnv 0 0 0 ⟨0, 0⟩ ⟨default, none⟩ rfl
  exact ⟨hmain.1, hmain.2.1, hmain.2.2.1, hmain.2.2.2.1, hmain.2.2.2.2.1,
    hmain.2.2.2.2.2.1, hmain.2.2.2.2.2.2.1,
    hmain.2.2.2.2.2.2.2.1 rfl,
    hmain.2.2.2.2.2.2.2.2 (by norm_num [trivEnv])⟩

/-- C8: every form of `sample_path` writes at most `max_depth` pathlets
(the recursive core writes at most its remaining budget
`max_depth - depth`), so the returned path length lies in
`[0, MAX_LEN]`; the model's recursion is structural, which is the
termination argument — the source stops on the depth cap, a zero
sampling density, a miss, or a back-face. -/
theorem C8_walk_length_bounded (env : Env) (fuel s : ℕ) (prev : sampled_pathlet)
    (r0 : Ray) (dens0 : ℚ) (hit : first_hit) (max_depth : ℕ) :
    (sample_path_core env fuel s prev).1.length ≤ fuel ∧
    (sample_path_from_ray env s r0 dens0 max_depth).1.length ≤ max_depth ∧
    (sample_path_from_first_hit env s r0 hit max_depth).1.length ≤ max_depth := by
  have hcore : ∀ (f s' : ℕ) (pv : sampled_pathlet),
      (sample_path_core env f s' pv).1.length ≤ f := by
    intro f
    induction f with
    | zero => intro s' pv; simp [sample_path_core]
    | succ n ih =>
      intro s' pv
      simp only [sample_path_core]
      split_ifs with h1 h2
      · simp
      · simp only [List.length_cons]
        exact Nat.succ_le_succ (ih _ _)
      · simp
  refine ⟨hcore fuel s prev, ?_, ?_⟩
  · simp only [sample_path_from_ray]
    split_ifs with h1
    · simp
    · have hlen := hcore (max_depth - 1) s ⟨-r0.dir, dens0, env.intersect r0, none⟩
      rcases not_or.mp h1 with ⟨-, h23⟩
      rcases not_or.mp h23 with ⟨-, h3⟩
      simp only [List.length_cons]
      omega
  · simp only [sample_path_from_first_hit]
    split_ifs with h1
    · simp
    · have hlen := hcore (max_depth - 1) s ⟨-r0.dir, 1, hit.intersect, hit.light⟩
      rcases not_or.mp h1 with ⟨-, h2⟩
      simp only [List.length_cons]
      omega

/-- Invariant of every interior pathlet (index `k ≥ 1`) written by
`sample_path`: its intersection record is valid, the stored vector `v`
is front-facing (`normal · v > 0`), the sampling density is nonzero,
and the `light` field is null. -/
def pathlet_inv (p : sampled_pathlet) : Prop :=
  p.vert.valid = true ∧ 0 < p.vert.normal.inner p.v ∧ p.dens ≠ 0 ∧ p.light = none

/-- C9: every pathlet the recursive core of `sample_path` writes — and
hence every pathlet at index `1 ≤ k ≤ L-1` of the prefix written by
either entry form — satisfies `pathlet_inv`; the model returns exactly
the list of array elements written, so no element at index `≥ L` is
touched. -/
theorem C9_interior_pathlet_invariant (env : Env) (fuel s : ℕ) (prev : sampled_pathlet)
    (r0 : Ray) (dens0 : ℚ) (hit : first_hit) (max_depth : ℕ) (p : sampled_pathlet) :
    (p ∈ (sample_path_core env fuel s prev).1 → pathlet_inv p) ∧
    (p ∈ (sample_path_from_ray env s r0 dens0 max_depth).1.tail → pathlet_inv p) ∧
    (p ∈ (sample_path_from_first_hit env s r0 hit max_depth).1.tail → pathlet_inv p) := by
  have hcore : ∀ (f s' : ℕ) (pv q : sampled_pathlet),
      q ∈ (sample_path_core env f s' pv).1 → pathlet_inv q := by
    intro f
    induction f with
    | zero => intro s' pv q hq; simp [sample_path_core] at hq
    | succ n ih =>
      intro s' pv q hq
      simp only [sample_path_core] at hq
      split_ifs at hq with h1 h2
      · simp at hq
      · rcases List.mem_cons.mp hq with rfl | hmem
        · exact ⟨h2.1, h2.2, h1, rfl⟩
        · exact ih _ _ _ hmem
      · simp at hq
  refine ⟨hcore fuel s prev p, ?_, ?_⟩
  · simp only [sample_path_from_ray]
    split_ifs with h1
    · intro hp
      simp at hp
    · intro hp
      exact hcore _ _ _ _ (by simpa using hp)
  · simp only [sample_path_from_first_hit]
    split_ifs with h1
    · intro hp
      simp at hp
    · intro hp
      exact hcore _ _ _ _ (by simpa using hp)

/-- Environment whose BRDF sampler always returns the downward
direction with unit density, so walks from `rayDown` keep bouncing on
the emissive plane. -/
def envWalk : Env :=
  { envEmissive with
    matSample := fun _ _ _ _ _ => (⟨0, 0, -1⟩, 1) }

/-- Witness for C9: the interior pathlet actually written by a concrete
two-step walk satisfies the invariant (checked through all three
conjuncts of the theorem). -/
theorem C9_interior_pathlet_invariant_witness :
    pathlet_inv (⟨⟨0, 0, 1⟩, 1, vertEmissive, none⟩ : sampled_pathlet) ∧
    pathlet_inv (⟨⟨0, 0, 1⟩, 1, vertEmissive, none⟩ : sampled_pathlet) ∧
    pathlet_inv (⟨⟨0, 0, 1⟩, 1, vertEmissive, none⟩ : sampled_pathlet) := by
  refine ⟨(C9_interior_pathlet_invariant envWalk 1 0
      ⟨⟨0, 0, 1⟩, 1, vertEmissive, none⟩ rayDown 1 ⟨vertEmissive, none⟩ 2
      ⟨⟨0, 0, 1⟩, 1, vertEmissive, none⟩).1 ?_,
    (C9_interior_pathlet_invariant envWalk 0 0 default rayDown 1
      ⟨vertEmissive, none⟩ 2 ⟨⟨0, 0, 1⟩, 1, vertEmissive, none⟩).2.1 ?_,
    (C9_interior_pathlet_invariant envWalk 0 0 default rayDown 1
      ⟨vertEmissive, none⟩ 2 ⟨⟨0, 0, 1⟩, 1, vertEmissive, none⟩).2.2 ?_⟩
  · norm_num [sample_path_core, envWalk, envEmissive, trivEnv, vertEmissive,
      sampled_pathlet.towards_prev]
  · norm_num [sample_path_from_ray, sample_path_core, envWalk, envEmissive, trivEnv,
      vertEmissive, rayDown, sampled_pathlet.towards_prev]
  · norm_num [sample_path_from_first_hit, sample_path_core, envWalk, envEmissive, trivEnv,
      vertEmissive, rayDown, sampled_pathlet.towards_prev]

/-- C10: the position and normal tracers are deterministic functions of
the scene and the first hits alone — their outputs are identical for
any two RNG draw counters, because neither draws from the RNG. -/
theorem C10_debug_tracers_rng_independent (env : Env) (hit : first_hit) (s1 s2 : ℕ) :
    position_tracer_pixel env s1 hit = position_tracer_pixel env s2 hit ∧
    normal_tracer_pixel env s1 hit = normal_tracer_pixel env s2 hit :=
  ⟨rfl, rfl⟩
